import Mathlib

/-!
Verification of the data-aggregation and derived-metrics core of the
bitcoin-narrative-generator repository (src/data_fetcher.py,
src/report_generator.py, src/config.py).

The Python source is shallowly embedded: floats become ℚ, dictionaries with
optional keys become structures with Option fields, fallible code returns
Except over a Python-exception type, and the global pseudorandom generator of
the standard library is abstracted as an explicit-state generator passed in
and threaded through.  Each definition mirrors one function (or a named
portion of one) of the source; line numbers in the doc comments refer to
src/data_fetcher.py unless stated otherwise.
-/

namespace BitcoinPulse

/-- Decidable equality for Except, used to evaluate embedded fallible
computations on concrete inputs. -/
instance {ε α : Type} [DecidableEq ε] [DecidableEq α] : DecidableEq (Except ε α) := fun x y =>
  match x, y with
  | .ok a, .ok b =>
    if h : a = b then isTrue (by rw [h]) else isFalse (fun hh => h (by injection hh))
  | .error a, .error b =>
    if h : a = b then isTrue (by rw [h]) else isFalse (fun hh => h (by injection hh))
  | .ok _, .error _ => isFalse (fun hh => by injection hh)
  | .error _, .ok _ => isFalse (fun hh => by injection hh)

/-- Python exceptions that the embedded code can raise or catch.  The
adapters in the source catch only requests.RequestException; ValueError and
ZeroDivisionError are not caught there. -/
inductive PyErr : Type where
  | requestException
  | valueError
  | zeroDivisionError
deriving DecidableEq

/-- True on Except.ok, false on Except.error: whether the embedded Python
code returned normally rather than raising. -/
def exceptOk {ε α : Type} : Except ε α → Bool
  | .ok _ => true
  | .error _ => false

/-! ## Halving arithmetic (fetch_block_stats, lines 594-606) -/

/-- halvings = block_height // 210000 (line 596). -/
def halvings (height : ℕ) : ℕ := height / 210000

/-- stats["block_reward"] = 50 / (2 ** halvings) (line 597). -/
def block_reward (height : ℕ) : ℚ := 50 / 2 ^ halvings height

/-- next_halving_block = (halvings + 1) * 210000 (line 599). -/
def next_halving_block (height : ℕ) : ℕ := (halvings height + 1) * 210000

/-- stats["blocks_until_halving"] = next_halving_block - block_height
(line 600). -/
def blocks_until_halving (height : ℕ) : ℕ := next_halving_block height - height

/-! ## Supply statistics (calculate_supply_stats, lines 723-745) -/

/-- Python int() applied to a rational: truncation toward zero. -/
def truncInt (x : ℚ) : ℤ := if 0 ≤ x then ⌊x⌋ else -⌊-x⌋

/-- The fields of the bitcoin_data record that calculate_supply_stats reads;
a missing dictionary key is none. -/
structure BitcoinData : Type where
  circulating_supply : Option ℚ
  price_usd : Option ℚ
deriving DecidableEq

/-- The field of the block_stats record that calculate_supply_stats reads. -/
structure BlockStatsIn : Type where
  block_reward : Option ℚ
deriving DecidableEq

/-- The stats dictionary built by calculate_supply_stats; sats fields are
present only when price > 0. -/
structure SupplyStats : Type where
  circulating_supply : ℚ
  remaining_to_mine : ℚ
  percent_mined : ℚ
  sats_per_dollar : Option ℤ
  sats_per_cent : Option ℚ
  block_reward_btc : ℚ
  block_reward_usd : ℚ
deriving DecidableEq

/-- calculate_supply_stats (lines 723-745): circulating defaults to
19_900_000, price defaults to 0, sats_per_dollar = int(100_000_000 / price)
only when price > 0, block_reward defaults to 3.125, block_reward_usd is 0
when price is falsy. -/
def calculate_supply_stats (bitcoin_data : BitcoinData) (block_stats : BlockStatsIn) :
    SupplyStats :=
  let circulating := bitcoin_data.circulating_supply.getD 19900000
  let max_supply : ℚ := 21000000
  let price := bitcoin_data.price_usd.getD 0
  let sats : Option ℤ :=
    if 0 < price then some (truncInt (100000000 / price)) else none
  let reward := block_stats.block_reward.getD (25 / 8)
  { circulating_supply := circulating
    remaining_to_mine := max_supply - circulating
    percent_mined := circulating / max_supply * 100
    sats_per_dollar := sats
    sats_per_cent := sats.map (fun n => (n : ℚ) / 100)
    block_reward_btc := reward
    block_reward_usd := if price ≠ 0 then reward * price else 0 }

/-! ## Volume signal (_calculate_signals, src/report_generator.py lines 96-106) -/

/-- One entry of the signals dictionary. -/
structure Signal : Type where
  status : String
  label : String
  icon : String
  ratio_basis : ℚ
deriving DecidableEq

/-- The volume branch of _calculate_signals: current_vol and avg_vol come
through `or 0` / `or 1` truthiness defaults, the ratio guard `if avg_vol`
is the truthiness test of the already-defaulted denominator, and the
thresholds 1.5 and 0.7 are strict. -/
def volume_signal (volume_24h_usd : Option ℚ) (avg_volume : Option ℚ) : Signal :=
  let current_vol := volume_24h_usd.getD 0
  let a := avg_volume.getD 0
  let avg_vol := if a = 0 then 1 else a
  let vol_ratio := if avg_vol = 0 then 1 else current_vol / avg_vol
  if vol_ratio > 3 / 2 then
    { status := "high", label := "High Volume", icon := "up", ratio_basis := vol_ratio }
  else if vol_ratio < 7 / 10 then
    { status := "low", label := "Low Volume", icon := "down", ratio_basis := vol_ratio }
  else
    { status := "normal", label := "Normal Volume", icon := "neutral", ratio_basis := vol_ratio }

/-! ## Difficulty 30-day change (fetch_blockchain_stats, lines 254-273)

Each chart entry is a dictionary that may lack its "y" key; an entry is
embedded as an Option ℚ (none = missing "y").  values[-1].get("y") has no
default, values[-1].get("y", 0) defaults to 0 and values[-30].get("y", 1)
defaults to 1 — the defaults apply only when the key is absent.  Python
raises ZeroDivisionError on division by a zero float, and the surrounding
try block catches only requests.RequestException. -/

/-- The difficulty block of fetch_blockchain_stats (lines 263-271), given the
parsed values list; returns (difficulty_current, difficulty_30d_change) or
the escaping exception. -/
def difficulty_stats (values : List (Option ℚ)) : Except PyErr (Option ℚ × Option ℚ) :=
  match values.getLast? with
  | none => .ok (none, none)
  | some lastEntry =>
    if 30 ≤ values.length then
      let lastY := lastEntry.getD 0
      let priorY := (values[values.length - 30]?.getD none).getD 1
      if priorY = 0 then .error .zeroDivisionError
      else .ok (lastEntry, some ((lastY - priorY) / priorY * 100))
    else .ok (lastEntry, none)

/-! ## Moving averages (_calculate_moving_averages, lines 147-174) -/

/-- One period's slice of the _calculate_moving_averages result dictionary:
sma_{p}, sma_{p}_current and price_vs_sma_{p}. -/
structure MAEntry : Type where
  sma : List ℚ
  sma_current : Option ℚ
  price_vs_sma : Option ℚ
deriving DecidableEq

/-- The ma_values list of lines 154-157: for i in range(period-1, len),
sum(prices[i-period+1 : i+1]) / period, written with j = i - period + 1. -/
def sma_series (prices : List ℚ) (period : ℕ) : List ℚ :=
  (List.range (prices.length + 1 - period)).map
    (fun j => ((prices.drop j).take period).sum / (period : ℚ))

/-- _calculate_moving_averages restricted to one period (lines 152-173): the
series and its last element exist only when len(prices) >= period, and
price_vs_sma is computed only when the current SMA is truthy (present and
nonzero). -/
def calc_ma_entry (prices : List ℚ) (period : ℕ) : MAEntry :=
  if period ≤ prices.length then
    let ma_values := sma_series prices period
    { sma := ma_values
      sma_current := ma_values.getLast?
      price_vs_sma :=
        match prices.getLast?, ma_values.getLast? with
        | some p, some m => if m = 0 then none else some ((p - m) / m * 100)
        | _, _ => none }
  else { sma := [], sma_current := none, price_vs_sma := none }

/-- The arithmetic mean of the period values of the series ending at index i,
stated independently of the SMA loop: the last period elements of the first
i+1 elements, averaged. -/
def windowMean (prices : List ℚ) (i period : ℕ) : ℚ :=
  (((prices.take (i + 1)).drop (i + 1 - period)).sum) / (period : ℚ)

/-! ## Adapter error handling (fetch_block_stats lines 565-592,
fetch_fear_greed_index lines 176-210)

Python int() applied to the response text parses an optionally signed
decimal string after stripping surrounding whitespace, and raises ValueError
otherwise.  Both adapters guard their network calls with
`except requests.RequestException` only, so a ValueError from int() inside
the try block escapes the adapter. -/

/-- Leading and trailing whitespace removal on a character list, the
strip int() performs before parsing. -/
def stripSpaces (cs : List Char) : List Char :=
  ((cs.dropWhile Char.isWhitespace).reverse.dropWhile Char.isWhitespace).reverse

/-- Digit-string accumulator for int(): all characters must be decimal
digits and at least one must be present. -/
def parseDigits (cs : List Char) : Option ℕ :=
  if cs.isEmpty then none
  else cs.foldl (fun acc c =>
    match acc with
    | some n => if c.isDigit then some (n * 10 + (c.toNat - 48)) else none
    | none => none) (some 0)

/-- Python int(s) on a string: optional sign, decimal digits, surrounding
whitespace ignored; none models the ValueError on any other input. -/
def pyInt? (s : String) : Option ℤ :=
  match stripSpaces s.data with
  | [] => none
  | c :: rest =>
    if c = '-' then (parseDigits rest).map (fun n => -(n : ℤ))
    else if c = '+' then (parseDigits rest).map (fun n => (n : ℤ))
    else (parseDigits (c :: rest)).map (fun n => (n : ℤ))

/-- An upstream response to a plain-text numeric endpoint: either the
transport layer raised requests.RequestException, or a status code and a
body arrived. -/
inductive Response : Type where
  | transportError
  | ok (status : ℕ) (text : String)
deriving DecidableEq

/-- One height attempt of fetch_block_stats (lines 570-579 and 583-592): a
transport error is swallowed by the except clause, a non-200 status stores
nothing, and a 200 body goes through int(), whose ValueError is not
caught. -/
def try_height (r : Response) : Except PyErr (Option ℤ) :=
  match r with
  | .transportError => .ok none
  | .ok status text =>
    if status = 200 then
      match pyInt? text with
      | some n => .ok (some n)
      | none => .error .valueError
    else .ok none

/-- The block-height portion of fetch_block_stats (lines 570-592): primary
provider first, secondary consulted only when no height was stored. -/
def fetch_block_height (r1 r2 : Response) : Except PyErr (Option ℤ) :=
  match try_height r1 with
  | .error e => .error e
  | .ok (some n) => .ok (some n)
  | .ok none => try_height r2

/-- One entry of the Fear and Greed "data" array; each field is absent or a
string, as delivered by the JSON payload. -/
structure FGEntry : Type where
  value : Option String
  value_classification : Option String
  timestamp : Option String
deriving DecidableEq

/-- A Fear and Greed upstream outcome: requestFailure covers transport
errors, timeouts and the HTTPError from raise_for_status on non-2xx; ok
carries the parsed entries of the "data" array. -/
inductive FGResponse : Type where
  | requestFailure
  | ok (entries : List FGEntry)
deriving DecidableEq

/-- int(e.get(field, 0)): a missing field defaults to 0, a present string
must parse or ValueError is raised. -/
def pyIntOfField (f : Option String) : Except PyErr ℤ :=
  match f with
  | none => .ok 0
  | some s =>
    match pyInt? s with
    | some n => .ok n
    | none => .error .valueError

/-- One item of the history comprehension (lines 198-205); the strftime
date is abstracted as the parsed epoch integer it formats. -/
structure FGHistoryEntry : Type where
  value : ℤ
  classification : Option String
  dateEpoch : ℤ
deriving DecidableEq

/-- The record fetch_fear_greed_index returns; {} on failure becomes the
all-absent record. -/
structure FGRecord : Type where
  value : Option ℤ
  classification : Option String
  timestamp : Option String
  history : List FGHistoryEntry
deriving DecidableEq

/-- The empty dictionary returned on failure paths. -/
def emptyFG : FGRecord := ⟨none, none, none, []⟩

/-- value and timestamp parsing of one history entry, in source order. -/
def fgHistoryEntry (e : FGEntry) : Except PyErr FGHistoryEntry := do
  let v ← pyIntOfField e.value
  let t ← pyIntOfField e.timestamp
  pure ⟨v, e.value_classification, t⟩

/-- The history list comprehension over entries[:7], left to right, stopping
at the first raised exception. -/
def fgHistory : List FGEntry → Except PyErr (List FGHistoryEntry)
  | [] => .ok []
  | e :: es => do
    let he ← fgHistoryEntry e
    let rest ← fgHistory es
    pure (he :: rest)

/-- fetch_fear_greed_index (lines 176-210): transport failures give {}, an
empty data array gives {}, and otherwise the current value, pass-through
classification, timestamp and 7-entry history are assembled; int() failures
raise ValueError past the except requests.RequestException clause. -/
def fetch_fear_greed_index (r : FGResponse) : Except PyErr FGRecord :=
  match r with
  | .requestFailure => .ok emptyFG
  | .ok entries =>
    match entries with
    | [] => .ok emptyFG
    | current :: rest => do
      let v ← pyIntOfField current.value
      let hist ← fgHistory ((current :: rest).take 7)
      pure { value := some v
             classification := some (current.value_classification.getD "Unknown")
             timestamp := current.timestamp
             history := hist }

/-- A response is benign for int() when any 200 body it carries parses as an
integer. -/
def responseTextOk : Response → Bool
  | .transportError => true
  | .ok s t => if s = 200 then (pyInt? t).isSome else true

/-- An entry is benign when its value and timestamp fields are absent or
parse as integers. -/
def fgEntryOk (e : FGEntry) : Bool :=
  (pyIntOfField e.value |> exceptOk) && (pyIntOfField e.timestamp |> exceptOk)

/-- A Fear and Greed response is benign when every entry is. -/
def fgResponseOk : FGResponse → Bool
  | .requestFailure => true
  | .ok entries => entries.all fgEntryOk

/-! ## Rate limiting (config.py, _rate_limit lines 33-39, and the session.get
call sites of every adapter)

Each adapter's externally visible behaviour toward the shared limiter is
captured as a trace of actions: rateLimit for a _rate_limit() call and
request for a session.get call.  The traces below transcribe the call
sequence of each adapter verbatim from the source, with a parameter where
the sequence depends on a branch (retry count, fallback taken, years
iterated). -/

/-- API_DELAY_SECONDS = 8 (config.py line 22). -/
def API_DELAY_SECONDS : ℚ := 8

/-- The sleep performed by _rate_limit (lines 36-38): sleep only when the
elapsed time since the last request is below the configured delay, for the
difference. -/
def rate_limit_sleep (last_request_time now : ℚ) : ℚ :=
  let elapsed := now - last_request_time
  if elapsed < API_DELAY_SECONDS then API_DELAY_SECONDS - elapsed else 0

/-- An observable action against the shared HTTP layer. -/
inductive Action : Type where
  | rateLimit
  | request (endpoint : String)
deriving DecidableEq

/-- n executed iterations of a loop whose body is _rate_limit() followed by
session.get(url) — the shape of _request_with_retry (lines 43-55) and of the
per-year loop of fetch_historical_year_price_data (lines 395-412). -/
def repeat_trace (url : String) : ℕ → List Action
  | 0 => []
  | n + 1 => Action.rateLimit :: Action.request url :: repeat_trace url n

/-- fetch_bitcoin_data (line 77) delegates to _request_with_retry. -/
def fetch_bitcoin_data_trace (attempts : ℕ) : List Action :=
  repeat_trace "coins/bitcoin" attempts

/-- fetch_price_history (line 113) delegates to _request_with_retry. -/
def fetch_price_history_trace (attempts : ℕ) : List Action :=
  repeat_trace "coins/bitcoin/market_chart" attempts

/-- fetch_fear_greed_index (lines 178-186). -/
def fetch_fear_greed_index_trace : List Action :=
  [.rateLimit, .request "fng"]

/-- fetch_blockchain_stats (lines 214-263). -/
def fetch_blockchain_stats_trace : List Action :=
  [.rateLimit, .request "charts/hash-rate",
   .rateLimit, .request "charts/n-transactions",
   .rateLimit, .request "charts/difficulty"]

/-- fetch_block_stats (lines 567-634): the blockchain.info fallback request
happens only when the primary height request stored nothing. -/
def fetch_block_stats_trace (primaryHeightOk : Bool) : List Action :=
  [Action.rateLimit, Action.request "blocks/tip/height"]
  ++ (if primaryHeightOk then [] else [Action.rateLimit, Action.request "q/getblockcount"])
  ++ [Action.rateLimit, Action.request "v1/fees/recommended",
      Action.rateLimit, Action.request "mempool"]

/-- fetch_network_stats (lines 645-694). -/
def fetch_network_stats_trace : List Action :=
  [.rateLimit, .request "stats",
   .rateLimit, .request "charts/transaction-fees-usd",
   .rateLimit, .request "charts/avg-block-size"]

/-- fetch_address_stats (lines 702-708). -/
def fetch_address_stats_trace : List Action :=
  [.rateLimit, .request "bitcoin/stats"]

/-- fetch_onchain_analytics (lines 749-810). -/
def fetch_onchain_analytics_trace : List Action :=
  [.rateLimit, .request "charts/n-unique-addresses",
   .rateLimit, .request "charts/my-wallet-n-users",
   .rateLimit, .request "charts/estimated-transaction-volume-usd",
   .rateLimit, .request "transactions"]

/-- fetch_market_trading_data (lines 827-911). -/
def fetch_market_trading_data_trace : List Action :=
  [.rateLimit, .request "global",
   .rateLimit, .request "open_interest",
   .rateLimit, .request "funding",
   .rateLimit, .request "liquidation_history",
   .rateLimit, .request "bitcoin/stats"]

/-- fetch_hash_rate_history (lines 279-284). -/
def fetch_hash_rate_history_trace : List Action :=
  [.rateLimit, .request "charts/hash-rate"]

/-- fetch_active_addresses_history (lines 307-312). -/
def fetch_active_addresses_history_trace : List Action :=
  [.rateLimit, .request "charts/n-unique-addresses"]

/-- fetch_historical_prices_on_this_day (lines 349-368): the session.get on
line 355 is issued with no preceding _rate_limit call. -/
def fetch_historical_prices_on_this_day_trace : List Action :=
  [.request "coins/bitcoin/history"]

/-- fetch_historical_year_price_data (lines 395-412): _rate_limit at the top
of each year iteration, then the range request. -/
def fetch_historical_year_price_data_trace (years_back : ℕ) : List Action :=
  repeat_trace "coins/bitcoin/market_chart/range" years_back

/-- fetch_bitcoin_news (lines 932-933). -/
def fetch_bitcoin_news_trace : List Action :=
  [.rateLimit, .request "api.rss2json.com/v1/api.json"]

/-- Scan of a trace: ready records whether a rateLimit has occurred since
the previous request (or the start); every request must find ready true. -/
def requestsRateLimited : Bool → List Action → Bool
  | _, [] => true
  | _, Action.rateLimit :: rest => requestsRateLimited true rest
  | ready, Action.request _ :: rest => ready && requestsRateLimited false rest

/-- A trace in which every outbound request is preceded by the rate
limiter's wait. -/
def traceRateLimited (tr : List Action) : Bool :=
  requestsRateLimited false tr

/-! ## News filtering (fetch_bitcoin_news, lines 923-958) -/

/-- str.lower() restricted to the character-wise lowering that matters for
the ASCII keyword comparison. -/
def lowerStr (s : String) : String :=
  String.mk (s.data.map Char.toLower)

/-- Whether the needle is an initial segment of the haystack. -/
def leadMatch : List Char → List Char → Bool
  | [], _ => true
  | _ :: _, [] => false
  | c :: cs, d :: ds => c = d && leadMatch cs ds

/-- Python substring containment `needle in hay` on character lists. -/
def occursIn (needle : List Char) : List Char → Bool
  | [] => needle.isEmpty
  | d :: tl => leadMatch needle (d :: tl) || occursIn needle tl

/-- btc_keywords (line 941). -/
def btc_keywords : List String :=
  ["bitcoin", "btc", "crypto", "halving", "mining"]

/-- any(kw in title for kw in btc_keywords) over the lowered title
(lines 943-945). -/
def titleMatches (title : String) : Bool :=
  btc_keywords.any (fun kw => occursIn kw.data (lowerStr title).data)

/-- One item of the rss2json "items" array, restricted to the fields the
adapter reads. -/
structure FeedItem : Type where
  title : String
  link : String
  pubDate : String
deriving DecidableEq

/-- One entry of the news_items result list (lines 946-952). -/
structure NewsOut : Type where
  title : String
  url : String
  source : String
  published_at : String
  domain : String
deriving DecidableEq

/-- The dictionary appended for a kept feed item. -/
def newsItemOf (item : FeedItem) : NewsOut :=
  ⟨item.title, item.link, "Cointelegraph", item.pubDate, "cointelegraph.com"⟩

/-- The item loop of fetch_bitcoin_news (lines 942-954): keep an item when
its title matches or the list is still short of the limit, and break as
soon as the limit is reached after an append. -/
def newsLoop (limit : ℕ) : List FeedItem → List NewsOut → List NewsOut
  | [], acc => acc
  | item :: rest, acc =>
    if titleMatches item.title = true ∨ acc.length < limit then
      if limit ≤ (acc ++ [newsItemOf item]).length then acc ++ [newsItemOf item]
      else newsLoop limit rest (acc ++ [newsItemOf item])
    else newsLoop limit rest acc

/-- fetch_bitcoin_news on an already-delivered items array (the success path
of lines 935-954); failures return the empty list unchanged. -/
def fetch_bitcoin_news (limit : ℕ) (items : List FeedItem) : List NewsOut :=
  newsLoop limit items []

/-! ## Static yearly price history (_get_static_yearly_price_history,
lines 439-497)

The Python random module's global Mersenne Twister is abstracted as an
arbitrary seeded generator with explicit state: seed(k) replaces the state,
uniform(a, b) consumes the state and yields the next draw.  The generator
type is a parameter, so every theorem below holds for the concrete stdlib
generator in particular.  The per-day date strings are functions of
(year, month, day, i) only and are omitted from the embedded series. -/

/-- An explicit-state pseudorandom interface: random.seed and
random.uniform of the Python standard library. -/
structure RandomGen (σ : Type) : Type where
  seed : ℕ → σ
  uniform : ℚ → ℚ → σ → ℚ × σ

/-- round(price, 2) (line 492). -/
def round2 (x : ℚ) : ℚ := (round (x * 100) : ℤ) / 100

/-- The 30-iteration walk of lines 482-493: daily_change and trend_change
are drawn in order, the price is clamped into [low, high], and the rounded
price is appended. -/
def price_walk {σ : Type} (R : RandomGen σ) (low high mid trend : ℚ) :
    ℕ → ℚ → σ → List ℚ × σ
  | 0, _, s => ([], s)
  | n + 1, price, s =>
    let d1 := R.uniform (-(3 / 100)) (3 / 100) s
    let daily_change := d1.1 * mid
    let d2 := R.uniform (1 / 2) (3 / 2) d1.2
    let trend_change := trend * d2.1
    let price2 := max low (min high (price + daily_change + trend_change * (3 / 10)))
    let rest := price_walk R low high mid trend n price2 d2.2
    (round2 price2 :: rest.1, rest.2)

/-- One year's series (lines 476-493): the generator is reseeded from
year*100 + month*10 + day before any draw, so the incoming state s0 is
discarded; then the starting price and the 30-day walk are drawn. -/
def gen_daily_prices {σ : Type} (R : RandomGen σ) (low high : ℚ)
    (year month day : ℕ) (_s0 : σ) : List ℚ × σ :=
  let s1 := R.seed (year * 100 + month * 10 + day)
  let mid := (low + high) / 2
  let trend := (high - low) / 30
  let p0 := R.uniform 0 ((high - low) * (3 / 10)) s1
  price_walk R low high mid trend 30 (low + p0.1) p0.2

/-- The 2024 row of the price_ranges table (lines 452-454). -/
def price_ranges_2024 (month : ℕ) : Option (ℚ × ℚ) :=
  match month with
  | 1 => some (42000, 48000) | 2 => some (42000, 52000) | 3 => some (62000, 72000)
  | 4 => some (60000, 72000) | 5 => some (58000, 70000) | 6 => some (60000, 70000)
  | 7 => some (54000, 68000) | 8 => some (54000, 65000) | 9 => some (56000, 66000)
  | 10 => some (60000, 73000) | 11 => some (68000, 99000) | 12 => some (92000, 108000)
  | _ => none

/-- The 2023 row of the price_ranges table (lines 455-457). -/
def price_ranges_2023 (month : ℕ) : Option (ℚ × ℚ) :=
  match month with
  | 1 => some (16500, 23500) | 2 => some (21500, 25200) | 3 => some (20000, 28500)
  | 4 => some (27000, 31000) | 5 => some (26500, 29500) | 6 => some (25000, 31500)
  | 7 => some (29000, 31500) | 8 => some (26000, 30000) | 9 => some (25000, 27500)
  | 10 => some (26500, 35000) | 11 => some (34000, 38000) | 12 => some (40000, 44000)
  | _ => none

/-- The 2022 row of the price_ranges table (lines 458-460). -/
def price_ranges_2022 (month : ℕ) : Option (ℚ × ℚ) :=
  match month with
  | 1 => some (35000, 47500) | 2 => some (37000, 45500) | 3 => some (38000, 48000)
  | 4 => some (38000, 46500) | 5 => some (28500, 40000) | 6 => some (17500, 31500)
  | 7 => some (19000, 24500) | 8 => some (20000, 25000) | 9 => some (18500, 22500)
  | 10 => some (19000, 21000) | 11 => some (15500, 21500) | 12 => some (16500, 17500)
  | _ => none

/-- The 2021 row of the price_ranges table (lines 461-463). -/
def price_ranges_2021 (month : ℕ) : Option (ℚ × ℚ) :=
  match month with
  | 1 => some (29000, 42000) | 2 => some (32000, 58000) | 3 => some (45000, 61500)
  | 4 => some (52000, 64500) | 5 => some (35000, 59500) | 6 => some (31500, 41000)
  | 7 => some (29500, 42000) | 8 => some (38000, 50000) | 9 => some (41000, 52500)
  | 10 => some (43500, 67000) | 11 => some (57000, 69000) | 12 => some (42000, 57500)
  | _ => none

/-- The 2020 row of the price_ranges table (lines 464-466). -/
def price_ranges_2020 (month : ℕ) : Option (ℚ × ℚ) :=
  match month with
  | 1 => some (6900, 9500) | 2 => some (8500, 10500) | 3 => some (4800, 9200)
  | 4 => some (6600, 9500) | 5 => some (8500, 10000) | 6 => some (9000, 10000)
  | 7 => some (9100, 11500) | 8 => some (10800, 12500) | 9 => some (10000, 11000)
  | 10 => some (10500, 14000) | 11 => some (13500, 19500) | 12 => some (18000, 29000)
  | _ => none

/-- The (low, high) monthly range for a year, none outside the table. -/
def price_range (year month : ℕ) : Option (ℚ × ℚ) :=
  match year with
  | 2024 => price_ranges_2024 month
  | 2023 => price_ranges_2023 month
  | 2022 => price_ranges_2022 month
  | 2021 => price_ranges_2021 month
  | 2020 => price_ranges_2020 month
  | _ => none

/-- The year loop of lines 469-495, threading the generator state across
years in insertion order; years whose month is not in the table contribute
nothing. -/
def build_years {σ : Type} (R : RandomGen σ) (month day : ℕ) :
    List ℕ → σ → List (ℕ × List ℚ) × σ
  | [], s => ([], s)
  | y :: ys, s =>
    match price_range y month with
    | some lh =>
      let g := gen_daily_prices R lh.1 lh.2 y month day s
      let rest := build_years R month day ys g.2
      ((y, g.1) :: rest.1, rest.2)
    | none => build_years R month day ys s

/-- _get_static_yearly_price_history: the yearly_data mapping, iterating the
table rows 2024..2020 in source order, given the generator state s0 at call
time. -/
def static_yearly_price_history {σ : Type} (R : RandomGen σ) (month day : ℕ) (s0 : σ) :
    List (ℕ × List ℚ) :=
  (build_years R month day [2024, 2023, 2022, 2021, 2020] s0).1

end BitcoinPulse

namespace BitcoinPulse

/-- Claim C1: for every block height h > 0 obtained by fetch_block_stats, the
derived fields satisfy block_reward = 50 / 2^floor(h/210000) and
blocks_until_halving = 210000*(floor(h/210000)+1) - h, and
blocks_until_halving lies in [1, 210000]. -/
theorem C1_halving_arithmetic (h : ℕ) (hpos : 0 < h) :
    block_reward h = 50 / 2 ^ (h / 210000)
    ∧ blocks_until_halving h = 210000 * (h / 210000 + 1) - h
    ∧ 1 ≤ blocks_until_halving h ∧ blocks_until_halving h ≤ 210000 := by
  refine ⟨rfl, ?_, ?_, ?_⟩
  · unfold blocks_until_halving next_halving_block halvings
    omega
  · unfold blocks_until_halving next_halving_block halvings
    omega
  · unfold blocks_until_halving next_halving_block halvings
    omega

/-- Witness for C1 at the spec's own scenario height 893760: epoch 4, reward
50/16, 156240 blocks until the next halving. -/
theorem C1_witness :
    block_reward 893760 = 50 / 16
    ∧ blocks_until_halving 893760 = 156240
    ∧ 1 ≤ blocks_until_halving 893760 ∧ blocks_until_halving 893760 ≤ 210000 := by
  have h := C1_halving_arithmetic 893760 (by decide)
  exact ⟨by norm_num [block_reward, halvings], by decide, h.2.2.1, h.2.2.2⟩

/-- Claim C10: when the market record lacks circulating_supply,
calculate_supply_stats substitutes 19,900,000 and still populates
circulating_supply, remaining_to_mine and percent_mined from it. -/
theorem C10_supply_defaults (price : Option ℚ) (bs : BlockStatsIn) :
    (calculate_supply_stats ⟨none, price⟩ bs).circulating_supply = 19900000
    ∧ (calculate_supply_stats ⟨none, price⟩ bs).remaining_to_mine = 1100000
    ∧ (calculate_supply_stats ⟨none, price⟩ bs).percent_mined = 19900000 / 21000000 * 100 := by
  refine ⟨rfl, ?_, rfl⟩
  show (21000000 : ℚ) - 19900000 = 1100000
  norm_num

/-- Claim C7: the volume signal compares ratio = 24h volume / 30-day average
volume with strict thresholds: ratio > 1.5 is "high", ratio < 0.7 is "low",
everything in [0.7, 1.5] (both endpoints included) is "normal". -/
theorem C7_volume_thresholds (v a : ℚ) (ha : a ≠ 0) :
    (volume_signal (some v) (some a)).ratio_basis = v / a
    ∧ (3 / 2 < v / a → (volume_signal (some v) (some a)).status = "high")
    ∧ (v / a < 7 / 10 → (volume_signal (some v) (some a)).status = "low")
    ∧ (7 / 10 ≤ v / a → v / a ≤ 3 / 2 → (volume_signal (some v) (some a)).status = "normal") := by
  unfold volume_signal
  simp only [Option.getD_some, if_neg ha]
  refine ⟨?_, ?_, ?_, ?_⟩
  · split_ifs <;> rfl
  · intro h1
    split_ifs <;> first | rfl | linarith
  · intro h1
    split_ifs <;> first | rfl | linarith
  · intro h1 h2
    split_ifs <;> first | rfl | linarith

/-- Witness for C7 at the boundary ratio 3/2 = 1.5 exactly: the signal is
"normal", not "high". -/
theorem C7_witness :
    (volume_signal (some 3) (some 2)).status = "normal"
    ∧ (volume_signal (some 3) (some 2)).ratio_basis = 3 / 2 := by
  have h := C7_volume_thresholds 3 2 (by norm_num)
  exact ⟨h.2.2.2 (by norm_num) (by norm_num), h.1⟩

/-- Counterexample to C9 as stated: at price 95000 the code stores
int(100000000/95000) = 1052, which differs from the exact quotient
100000000/95000. -/
theorem C9_counterexample :
    (calculate_supply_stats ⟨some 19900000, some 95000⟩ ⟨none⟩).sats_per_dollar = some 1052
    ∧ (100000000 : ℚ) / 95000 ≠ (1052 : ℚ) := by
  constructor
  · norm_num [calculate_supply_stats, truncInt]
  · norm_num

/-- Claim C9 amended: calculate_supply_stats sets
sats_per_dollar = ⌊100,000,000 / p⌋ (Python int() truncation of the
quotient) for p > 0, leaves it absent for p ≤ 0 or a missing price, and in
every case remaining_to_mine = 21,000,000 - circulating. -/
theorem C9_amended (bd : BitcoinData) (bs : BlockStatsIn) (p : ℚ) :
    (bd.price_usd = some p → 0 < p →
      (calculate_supply_stats bd bs).sats_per_dollar = some ⌊(100000000 : ℚ) / p⌋)
    ∧ (bd.price_usd = some p → p ≤ 0 →
      (calculate_supply_stats bd bs).sats_per_dollar = none)
    ∧ (bd.price_usd = none → (calculate_supply_stats bd bs).sats_per_dollar = none)
    ∧ (calculate_supply_stats bd bs).remaining_to_mine
        = 21000000 - (calculate_supply_stats bd bs).circulating_supply := by
  refine ⟨?_, ?_, ?_, rfl⟩
  · intro hp hpos
    have hnn : (0 : ℚ) ≤ 100000000 / p := by positivity
    simp [calculate_supply_stats, hp, hpos, truncInt, hnn]
  · intro hp hle
    simp [calculate_supply_stats, hp, not_lt.mpr hle]
  · intro hp
    simp [calculate_supply_stats, hp]

/-- Witness for C9 amended at price 95000: sats_per_dollar is the floor
1052. -/
theorem C9_witness :
    (0 : ℚ) < 95000
    ∧ (calculate_supply_stats ⟨some 19900000, some 95000⟩ ⟨none⟩).sats_per_dollar
        = some ⌊(100000000 : ℚ) / 95000⌋ := by
  exact ⟨by norm_num,
    (C9_amended ⟨some 19900000, some 95000⟩ ⟨none⟩ 95000).1 rfl (by norm_num)⟩

/-- Counterexample to C4 as stated: a 30-point difficulty series whose
30-days-ago entry has y present and equal to 0 reaches the division with
denominator 0 and raises ZeroDivisionError — the denominator 1 is not
substituted for present values ≤ 0. -/
theorem C4_counterexample :
    difficulty_stats (some 0 :: List.replicate 29 (some 1))
      = Except.error PyErr.zeroDivisionError := by
  decide

/-- Claim C4 amended: in the difficulty 30-day percent change, the
denominator 1 is substituted only when the 30-day-ago entry lacks its y
field; a present nonzero y (including negative values) is used as the
denominator, and a present y equal to zero makes the computation raise
ZeroDivisionError. -/
theorem C4_amended (values : List (Option ℚ)) (h30 : 30 ≤ values.length)
    (lastE : Option ℚ) (hlast : values.getLast? = some lastE) :
    (values[values.length - 30]? = some none →
      difficulty_stats values = .ok (lastE, some ((lastE.getD 0 - 1) / 1 * 100)))
    ∧ (∀ q : ℚ, values[values.length - 30]? = some (some q) → q ≠ 0 →
      difficulty_stats values = .ok (lastE, some ((lastE.getD 0 - q) / q * 100)))
    ∧ (values[values.length - 30]? = some (some 0) →
      difficulty_stats values = .error .zeroDivisionError) := by
  refine ⟨?_, ?_, ?_⟩
  · intro hget
    simp [difficulty_stats, hlast, if_pos h30, hget]
  · intro q hget hq
    simp [difficulty_stats, hlast, if_pos h30, hget, hq]
  · intro hget
    simp [difficulty_stats, hlast, if_pos h30, hget]

/-- Witness for C4 amended: a 30-point series whose 30-days-ago entry lacks
y gets denominator 1. -/
theorem C4_witness :
    difficulty_stats (none :: List.replicate 29 (some 2)) = Except.ok (some 2, some 100) := by
  have h := (C4_amended (none :: List.replicate 29 (some 2)) (by decide)
    (some 2) (by decide)).1 (by decide)
  rw [h]
  norm_num

/-- Claim C2: for each period p in {7,20,50,200}, a price series shorter than
p yields an absent SMA (empty list, None current, no price_vs field); a
series with at least p points yields, at each index i >= p-1, the arithmetic
mean of the p values ending at i, and price_vs_sma_p =
(latest_price - latest_SMA_p) / latest_SMA_p * 100 whenever the latest SMA
is present and nonzero. -/
theorem C2_moving_averages (prices : List ℚ) (p : ℕ) (hp : p ∈ [7, 20, 50, 200]) :
    (prices.length < p → calc_ma_entry prices p = ⟨[], none, none⟩)
    ∧ (p ≤ prices.length →
      (calc_ma_entry prices p).sma.length = prices.length + 1 - p
      ∧ (∀ j, j + p ≤ prices.length →
          ((calc_ma_entry prices p).sma)[j]? = some (windowMean prices (j + p - 1) p))
      ∧ (∀ lastP m, prices.getLast? = some lastP →
          (calc_ma_entry prices p).sma_current = some m → m ≠ 0 →
          (calc_ma_entry prices p).price_vs_sma = some ((lastP - m) / m * 100))) := by
  have hp1 : 1 ≤ p := by fin_cases hp <;> norm_num
  refine ⟨?_, ?_⟩
  · intro h
    unfold calc_ma_entry
    rw [if_neg (by omega)]
  · intro h
    refine ⟨?_, ?_, ?_⟩
    · simp only [calc_ma_entry, if_pos h]
      simp [sma_series]
    · intro j hj
      simp only [calc_ma_entry, if_pos h]
      show (sma_series prices p)[j]? = _
      unfold sma_series
      rw [List.getElem?_map, List.getElem?_range (by omega : j < prices.length + 1 - p)]
      unfold windowMean
      rw [show j + p - 1 + 1 = j + p from by omega]
      rw [show j + p - p = j from by omega]
      rw [List.drop_take]
      rw [show j + p - j = p from by omega]
      rfl
    · intro lastP m hlast hcur hm
      have hcur2 : (sma_series prices p).getLast? = some m := by
        simpa only [calc_ma_entry, if_pos h] using hcur
      simp only [calc_ma_entry, if_pos h]
      rw [hlast, hcur2]
      simp [hm]

/-- An Except value known to be ok from its exceptOk flag. -/
theorem exceptOk_exists {ε α : Type} (x : Except ε α) (h : exceptOk x = true) :
    ∃ a, x = .ok a := by
  cases x with
  | ok a => exact ⟨a, rfl⟩
  | error e => simp [exceptOk] at h

/-- A height attempt on a benign response never raises. -/
theorem try_height_ok (r : Response) (hr : responseTextOk r = true) :
    ∃ v, try_height r = .ok v := by
  cases r with
  | transportError => exact ⟨none, rfl⟩
  | ok s t =>
    simp only [responseTextOk] at hr
    simp only [try_height]
    by_cases hs : s = 200
    · rw [if_pos hs] at hr ⊢
      cases hpi : pyInt? t with
      | some n => exact ⟨some n, rfl⟩
      | none => rw [hpi] at hr; simp at hr
    · rw [if_neg hs]
      exact ⟨none, rfl⟩

/-- A benign entry's history item parses. -/
theorem fgHistoryEntry_ok (e : FGEntry) (h : fgEntryOk e = true) :
    ∃ x, fgHistoryEntry e = .ok x := by
  unfold fgEntryOk at h
  rw [Bool.and_eq_true] at h
  obtain ⟨v, hv⟩ := exceptOk_exists _ h.1
  obtain ⟨t, ht⟩ := exceptOk_exists _ h.2
  refine ⟨⟨v, e.value_classification, t⟩, ?_⟩
  unfold fgHistoryEntry
  rw [hv, ht]
  rfl

/-- The history comprehension over benign entries never raises. -/
theorem fgHistory_ok (l : List FGEntry) (hall : l.all fgEntryOk = true) :
    ∃ hs, fgHistory l = .ok hs := by
  induction l with
  | nil => exact ⟨[], rfl⟩
  | cons e es ih =>
    rw [List.all_cons, Bool.and_eq_true] at hall
    obtain ⟨x, hx⟩ := fgHistoryEntry_ok e hall.1
    obtain ⟨hs, hhs⟩ := ih hall.2
    refine ⟨x :: hs, ?_⟩
    unfold fgHistory
    rw [hx, hhs]
    rfl

/-- Counterexample to C3 as stated: a 200 response whose body is not numeric
makes the block-height adapter raise ValueError past its boundary (even
though the fallback provider would have answered), and a sentiment entry
whose value is not numeric does the same in the Fear and Greed adapter. -/
theorem C3_counterexample :
    fetch_block_height (Response.ok 200 "error") (Response.ok 200 "900000")
      = Except.error PyErr.valueError
    ∧ fetch_fear_greed_index (FGResponse.ok
        [⟨some "Extreme Greed", some "Greed", some "1700000000"⟩])
      = Except.error PyErr.valueError := by
  exact ⟨rfl, rfl⟩

/-- Claim C3 amended: the adapters swallow transport errors, timeouts and
non-200 statuses and return empty or default-filled records, but a 200
response whose payload is non-numeric where an integer is expected (block
height body, sentiment value or timestamp) raises ValueError past the
adapter boundary; on benign payloads no exception escapes. -/
theorem C3_amended (r1 r2 : Response) (fg : FGResponse)
    (h1 : responseTextOk r1 = true) (h2 : responseTextOk r2 = true)
    (h3 : fgResponseOk fg = true) :
    exceptOk (fetch_block_height r1 r2) = true
    ∧ exceptOk (fetch_fear_greed_index fg) = true := by
  constructor
  · unfold fetch_block_height
    obtain ⟨v1, hv1⟩ := try_height_ok r1 h1
    rw [hv1]
    cases v1 with
    | some n => rfl
    | none =>
      obtain ⟨v2, hv2⟩ := try_height_ok r2 h2
      show exceptOk (try_height r2) = true
      rw [hv2]
      rfl
  · cases fg with
    | requestFailure => rfl
    | ok entries =>
      cases entries with
      | nil => rfl
      | cons current rest =>
        simp only [fgResponseOk] at h3
        rw [List.all_cons, Bool.and_eq_true] at h3
        have hcur := h3.1
        unfold fgEntryOk at hcur
        rw [Bool.and_eq_true] at hcur
        obtain ⟨v, hv⟩ := exceptOk_exists _ hcur.1
        have htake : ((current :: rest).take 7).all fgEntryOk = true := by
          rw [List.all_eq_true]
          intro x hx
          have hfull : (current :: rest).all fgEntryOk = true := by
            rw [List.all_cons, Bool.and_eq_true]
            exact h3
          rw [List.all_eq_true] at hfull
          exact hfull x (List.take_subset 7 (current :: rest) hx)
        obtain ⟨hs, hhs⟩ := fgHistory_ok _ htake
        simp only [fetch_fear_greed_index]
        rw [hv, hhs]
        rfl

/-- Witness for C3 amended: a numeric 200 height body and a well-formed
sentiment payload produce no escaping exception. -/
theorem C3_witness :
    exceptOk (fetch_block_height (Response.ok 200 "870000") Response.transportError) = true
    ∧ exceptOk (fetch_fear_greed_index (FGResponse.ok
        [⟨some "72", some "Greed", some "1700000000"⟩])) = true := by
  exact C3_amended (Response.ok 200 "870000") Response.transportError
    (FGResponse.ok [⟨some "72", some "Greed", some "1700000000"⟩])
    (by decide) (by decide) (by decide)

/-- Every iteration of the rate-limit-then-request loop is preceded by the
limiter, whatever state the scan starts in. -/
theorem repeat_trace_rateLimited (url : String) (n : ℕ) (b : Bool) :
    requestsRateLimited b (repeat_trace url n) = true := by
  induction n generalizing b with
  | zero => rfl
  | succ k ih =>
    simp only [repeat_trace, requestsRateLimited, Bool.true_and]
    exact ih false

/-- Counterexample to C5 as stated: the CoinGecko history request of
fetch_historical_prices_on_this_day is issued with no preceding rate-limit
wait. -/
theorem C5_counterexample :
    traceRateLimited fetch_historical_prices_on_this_day_trace = false := rfl

/-- Claim C5 amended: _rate_limit sleeps max(0, min_interval - elapsed)
against the shared timestamp, and every adapter request in the pipeline is
preceded by that wait except the single CoinGecko lookup inside
fetch_historical_prices_on_this_day, which bypasses the limiter. -/
theorem C5_amended :
    (∀ last now : ℚ, rate_limit_sleep last now = max 0 (API_DELAY_SECONDS - (now - last)))
    ∧ (∀ n, traceRateLimited (fetch_bitcoin_data_trace n) = true)
    ∧ (∀ n, traceRateLimited (fetch_price_history_trace n) = true)
    ∧ traceRateLimited fetch_fear_greed_index_trace = true
    ∧ traceRateLimited fetch_blockchain_stats_trace = true
    ∧ (∀ b, traceRateLimited (fetch_block_stats_trace b) = true)
    ∧ traceRateLimited fetch_network_stats_trace = true
    ∧ traceRateLimited fetch_address_stats_trace = true
    ∧ traceRateLimited fetch_onchain_analytics_trace = true
    ∧ traceRateLimited fetch_market_trading_data_trace = true
    ∧ traceRateLimited fetch_hash_rate_history_trace = true
    ∧ traceRateLimited fetch_active_addresses_history_trace = true
    ∧ (∀ n, traceRateLimited (fetch_historical_year_price_data_trace n) = true)
    ∧ traceRateLimited fetch_bitcoin_news_trace = true := by
  refine ⟨?_, ?_, ?_, rfl, rfl, ?_, rfl, rfl, rfl, rfl, rfl, rfl, ?_, rfl⟩
  · intro last now
    unfold rate_limit_sleep
    rcases lt_or_le (now - last) API_DELAY_SECONDS with h | h
    · rw [if_pos h, max_eq_right (by linarith)]
    · rw [if_neg (not_lt.mpr h), max_eq_left (by linarith)]
  · exact fun n => repeat_trace_rateLimited _ n false
  · exact fun n => repeat_trace_rateLimited _ n false
  · intro b
    cases b <;> rfl
  · exact fun n => repeat_trace_rateLimited _ n false

/-- While the accumulator is short of the limit, the news loop keeps every
item regardless of its title, until the limit is reached. -/
theorem newsLoop_fill (limit : ℕ) (items : List FeedItem) :
    ∀ (acc : List NewsOut), acc.length < limit →
      newsLoop limit items acc = acc ++ (items.take (limit - acc.length)).map newsItemOf := by
  induction items with
  | nil =>
    intro acc h
    simp [newsLoop]
  | cons item rest ih =>
    intro acc h
    simp only [newsLoop]
    rw [if_pos (Or.inr h)]
    have hlen : (acc ++ [newsItemOf item]).length = acc.length + 1 := by simp
    by_cases hfull : limit ≤ (acc ++ [newsItemOf item]).length
    · rw [if_pos hfull]
      rw [hlen] at hfull
      rw [show limit - acc.length = 1 from by omega]
      simp
    · rw [if_neg hfull]
      rw [hlen] at hfull
      have hlt : (acc ++ [newsItemOf item]).length < limit := by rw [hlen]; omega
      rw [ih _ hlt, hlen]
      rw [show limit - acc.length = (limit - (acc.length + 1)) + 1 from by omega]
      rw [List.take_succ_cons, List.map_cons, List.append_assoc]
      rfl

/-- With a limit of zero the append-then-break structure returns exactly the
first keyword-matching item, if any. -/
theorem newsLoop_zero (items : List FeedItem) :
    newsLoop 0 items [] =
      (match items.find? (fun it => titleMatches it.title) with
       | some it => [newsItemOf it]
       | none => []) := by
  induction items with
  | nil => rfl
  | cons item rest ih =>
    simp only [newsLoop]
    by_cases hm : titleMatches item.title = true
    · rw [if_pos (Or.inl hm),
        @List.find?_cons_of_pos _ (fun it => titleMatches it.title) item rest hm]
      simp
    · rw [if_neg (by simp [hm]),
        @List.find?_cons_of_neg _ (fun it => titleMatches it.title) item rest hm]
      exact ih

/-- Feed items for C6: the first title does not match the keyword list, the
second does. -/
def cexItemA : FeedItem :=
  ⟨"Ethereum Upgrade Ships", "https://cointelegraph.com/a", "d1"⟩

/-- The matching feed item for C6. -/
def cexItemB : FeedItem :=
  ⟨"Bitcoin Rallies Past 100K", "https://cointelegraph.com/b", "d2"⟩

/-- Counterexample to C6 as stated: with limit 1 and a matching item
available, the code returns the earlier non-matching item (the backfill
disjunct subsumes the filter), and with limit 0 a matching item still
yields one result, exceeding the requested cap. -/
theorem C6_counterexample :
    fetch_bitcoin_news 1 [cexItemA, cexItemB] = [newsItemOf cexItemA]
    ∧ titleMatches cexItemA.title = false
    ∧ titleMatches cexItemB.title = true
    ∧ fetch_bitcoin_news 0 [cexItemB] = [newsItemOf cexItemB] := by
  refine ⟨?_, ?_, ?_, ?_⟩ <;> decide

/-- Claim C6 amended: for every requested limit n >= 1 the adapter returns
the first min(n, len(items)) feed items in order, irrespective of keyword
matching — the condition "title matches or we still need items" is always
true while the list is short, so the keyword filter never excludes
anything; the result length is at most n. Only for n = 0 does the filter
act, returning the first matching item alone. -/
theorem C6_amended (limit : ℕ) (items : List FeedItem) (hl : 1 ≤ limit) :
    fetch_bitcoin_news limit items = (items.take limit).map newsItemOf
    ∧ (fetch_bitcoin_news limit items).length ≤ limit
    ∧ fetch_bitcoin_news 0 items =
        (match items.find? (fun it => titleMatches it.title) with
         | some it => [newsItemOf it]
         | none => []) := by
  have h1 : fetch_bitcoin_news limit items = (items.take limit).map newsItemOf := by
    have h0 := newsLoop_fill limit items [] (by simpa using hl)
    simpa [fetch_bitcoin_news] using h0
  refine ⟨h1, ?_, newsLoop_zero items⟩
  rw [h1, List.length_map, List.length_take]
  exact min_le_left _ _

/-- Witness for C6 amended: with limit 1 the first item is returned and the
cap holds. -/
theorem C6_witness :
    fetch_bitcoin_news 1 [cexItemB, cexItemA] = [newsItemOf cexItemB]
    ∧ (fetch_bitcoin_news 1 [cexItemB, cexItemA]).length ≤ 1 := by
  have h := C6_amended 1 [cexItemB, cexItemA] (by norm_num)
  exact ⟨h.1.trans (by decide), h.2.1⟩

/-- A year's generation reseeds the generator before the first draw, so the
state at call time is irrelevant to both the series and the resulting
state. -/
theorem gen_daily_prices_state_irrel {σ : Type} (R : RandomGen σ) (low high : ℚ)
    (year month day : ℕ) (sA sB : σ) :
    gen_daily_prices R low high year month day sA
      = gen_daily_prices R low high year month day sB := rfl

/-- The yearly mapping built over any year list is independent of the
incoming generator state. -/
theorem build_years_fst_irrel {σ : Type} (R : RandomGen σ) (month day : ℕ) :
    ∀ (ys : List ℕ) (sA sB : σ),
      (build_years R month day ys sA).1 = (build_years R month day ys sB).1 := by
  intro ys
  induction ys with
  | nil => intro sA sB; rfl
  | cons y ys ih =>
    intro sA sB
    simp only [build_years]
    cases hr : price_range y month with
    | none => exact ih sA sB
    | some lh =>
      dsimp only
      rw [gen_daily_prices_state_irrel R lh.1 lh.2 y month day sA sB]

/-- Claim C8: two calls of the static yearly price-history generator with
the same (year, month, day) — the seed year*100 + month*10 + day is set
before every draw — produce identical synthetic daily series, whatever the
global generator state was at each call. -/
theorem C8_static_history_deterministic {σ : Type} (R : RandomGen σ)
    (month day : ℕ) (s1 s2 : σ) :
    static_yearly_price_history R month day s1
      = static_yearly_price_history R month day s2 := by
  unfold static_yearly_price_history
  exact build_years_fst_irrel R month day _ s1 s2

/-- Concrete price series for the C2 witness. -/
def pricesW : List ℚ := [1, 2, 3, 4, 5, 6, 7, 8]

/-- Witness for C2 on an 8-point series with period 7: SMA list [4, 5],
the element at index 1 is the mean of prices 2..8, and price_vs_sma_7 is
(8 - 5) / 5 * 100. -/
theorem C2_witness :
    ((calc_ma_entry pricesW 7).sma)[1]? = some (windowMean pricesW 7 7)
    ∧ (calc_ma_entry pricesW 7).price_vs_sma = some ((8 - 5) / 5 * 100) := by
  have h := (C2_moving_averages pricesW 7 (by decide)).2 (by decide)
  refine ⟨h.2.1 1 (by decide), h.2.2 8 5 (by decide) ?_ (by norm_num)⟩
  show (calc_ma_entry pricesW 7).sma_current = some 5
  simp [calc_ma_entry, sma_series, pricesW, List.range_succ]
  norm_num

end BitcoinPulse
